import Mathlib

/-!
Shallow embedding of the yt-transcriber service (src/app.py) and proofs of
the specified properties.

External effects (the yt-dlp subprocess, the filesystem, the Whisper model,
the OpenAI API) are modelled by explicit oracles: the filesystem is a list of
existing paths, the downloader is a behaviour record (outcome plus the files
the subprocess created while it ran), and each transcription backend is a
function from file path and optional language to a success text or an error
message.  Python standard-library helpers (`urllib.parse.urlparse`,
`parse_qs`) are modelled faithfully at the level the program uses them;
percent-decoding is done byte-wise (multi-byte UTF-8 recombination of decoded
bytes is not modelled, which no theorem below depends on).  Strings are
processed as character lists so that every definition is structurally
recursive and computable by the kernel.
-/

namespace YT

/-- Model of CPython `urlsplit` input sanitisation: strip leading/trailing
C0-control-or-space characters, then remove every tab, CR and LF. -/
def sanitizeUrl (u : List Char) : List Char :=
  let cs := u.dropWhile (fun c => c.toNat ≤ 0x20)
  let cs := (cs.reverse.dropWhile (fun c => c.toNat ≤ 0x20)).reverse
  cs.filter (fun c => c ≠ '\t' ∧ c ≠ '\r' ∧ c ≠ '\n')

/-- Characters before the first occurrence of `sep` (Python
`s.split(sep, 1)[0]`). -/
def beforeFirst (sep : Char) : List Char → List Char
  | [] => []
  | c :: rest => if c = sep then [] else c :: beforeFirst sep rest

/-- Characters after the first occurrence of `sep`, `none` when `sep` is
absent (Python `s.split(sep, 1)[1]` guarded by `sep in s`). -/
def afterFirst (sep : Char) : List Char → Option (List Char)
  | [] => none
  | c :: rest => if c = sep then some rest else afterFirst sep rest

/-- Model of the `query` component produced by Python `urlparse`: the part of
the (sanitised) URL after the first `?` that occurs before the first `#`.
Scheme and netloc splitting never move a `?` or `#`, so they do not affect
the query component. -/
def urlQuery (u : List Char) : List Char :=
  (afterFirst '?' (beforeFirst '#' (sanitizeUrl u))).getD []

/-- Split on every occurrence of `sep` (Python `s.split(sep)`). -/
def splitOnChar (sep : Char) : List Char → List (List Char)
  | [] => [[]]
  | c :: rest =>
    let r := splitOnChar sep rest
    if c = sep then [] :: r
    else match r with
      | [] => [[c]]
      | g :: gs => (c :: g) :: gs

/-- Hex digit value, `none` for a non-hex character. -/
def hexVal (c : Char) : Option Nat :=
  if '0' ≤ c ∧ c ≤ '9' then some (c.toNat - '0'.toNat)
  else if 'a' ≤ c ∧ c ≤ 'f' then some (c.toNat - 'a'.toNat + 10)
  else if 'A' ≤ c ∧ c ≤ 'F' then some (c.toNat - 'A'.toNat + 10)
  else none

/-- Model of Python `urllib.parse.unquote` at the byte level: each valid
`%hh` escape becomes the character with that byte value; an invalid escape is
kept literally and scanning resumes at the next character. -/
def pctDecode : List Char → List Char
  | [] => []
  | '%' :: a :: b :: rest =>
    match hexVal a, hexVal b with
    | some ha, some hb => Char.ofNat (16 * ha + hb) :: pctDecode rest
    | _, _ => '%' :: pctDecode (a :: b :: rest)
  | c :: rest => c :: pctDecode rest

/-- Model of `unquote(s.replace('+', ' '))` as used by `parse_qsl`. -/
def unquotePlus (s : List Char) : List Char :=
  pctDecode (s.map (fun c => if c = '+' then ' ' else c))

/-- Split a query field on its first `=`: `none` when no `=` is present
(Python `name_value.split('=', 1)` with the length check). -/
def splitFirstEq : List Char → Option (List Char × List Char)
  | [] => none
  | c :: rest =>
    if c = '=' then some ([], rest)
    else match splitFirstEq rest with
      | none => none
      | some (n, v) => some (c :: n, v)

/-- Model of Python `urllib.parse.parse_qsl` with default arguments
(`keep_blank_values=False`, separator `&`): empty fields, fields without `=`
and fields with an empty value are dropped; names and values are
plus-and-percent decoded. -/
def parse_qsl (qs : List Char) : List (List Char × List Char) :=
  (splitOnChar '&' qs).filterMap fun field =>
    if field = [] then none
    else match splitFirstEq field with
      | none => none
      | some (name, value) =>
        if value = [] then none
        else some (unquotePlus name, unquotePlus value)

/-- Append a value to the list held under `k`, creating the entry if absent —
the grouping step of `parse_qs`. -/
def insertAppend (acc : List (List Char × List (List Char))) (k v : List Char) :
    List (List Char × List (List Char)) :=
  match acc with
  | [] => [(k, [v])]
  | (k', vs) :: rest =>
    if k' = k then (k', vs ++ [v]) :: rest
    else (k', vs) :: insertAppend rest k v

/-- Model of Python `urllib.parse.parse_qs` with default arguments. -/
def parse_qs (qs : List Char) : List (List Char × List (List Char)) :=
  (parse_qsl qs).foldl (fun acc kv => insertAppend acc kv.1 kv.2) []

/-- Association-list lookup (Python `dict.get`). -/
def lookupKey (qp : List (List Char × List (List Char))) (k : List Char) :
    Option (List (List Char)) :=
  match qp with
  | [] => none
  | (k', vs) :: rest => if k' = k then some vs else lookupKey rest k

/-- Model of `query_params.get('v', [None])[0]` from `clean_youtube_url`:
the first parsed value of the `v` parameter, if any. -/
def getV (qp : List (List Char × List (List Char))) : Option (List Char) :=
  match lookupKey qp ['v'] with
  | some vs => vs.head?
  | none => none

/-- Embedding of `clean_youtube_url` (src/app.py lines 41-47): parse the
query of the URL, and if a truthy `v` value is present return the canonical
watch URL built from it, else return the input unchanged.  The `v = []`
branch mirrors Python truthiness of the retrieved value. -/
def clean_youtube_url (youtube_url : String) : String :=
  match getV (parse_qs (urlQuery youtube_url.toList)) with
  | some v =>
    if v = [] then youtube_url
    else String.mk ("https://www.youtube.com/watch?v=".toList ++ v)
  | none => youtube_url

example : clean_youtube_url "https://www.youtube.com/watch?v=XYZ&t=30s"
    = "https://www.youtube.com/watch?v=XYZ" := by decide

example : clean_youtube_url "https://youtu.be/abc123?feature=share"
    = "https://youtu.be/abc123?feature=share" := by decide

example : clean_youtube_url "https://www.youtube.com/watch?v="
    = "https://www.youtube.com/watch?v=" := by decide

example : clean_youtube_url "https://www.youtube.com/watch?v=a&v=b"
    = "https://www.youtube.com/watch?v=a" := by decide

example : clean_youtube_url "http://youtube.com/watch?x=1&v=QQ7&t=9"
    = "https://www.youtube.com/watch?v=QQ7" := by decide

/-! Filesystem, downloader and backend models. -/

/-- The filesystem is the list of paths that currently exist. -/
abbrev Fs := List String

/-- Deletion of a path (model of `os.remove`; paths are unique, so removal
deletes every occurrence). -/
def fsRemove (fs : Fs) (p : String) : Fs :=
  fs.filter (fun q => q ≠ p)

/-- Outcome of the `subprocess.run` call on yt-dlp: either the hard
1200-second wall-clock timeout expired, or the process completed with an
exit code and captured stdout/stderr. -/
inductive ProcOutcome where
  | timeout : ProcOutcome
  | completed (exitCode : Int) (stdout stderr : String) : ProcOutcome
deriving DecidableEq, Repr

/-- Behaviour oracle for one yt-dlp invocation: how the subprocess ends, and
which files it created on disk while it ran (files created before a timeout
kill or a failing exit persist). -/
structure DownloaderBehavior where
  outcome : ProcOutcome
  created : List String
deriving DecidableEq, Repr

/-- Errors raised by `download_audio`, distinguished by Python exception
class: `RuntimeError` (timeout / nonzero exit) versus `FileNotFoundError`
(no output file with an accepted extension).  `msg` is `str(e)`. -/
inductive ErrKind where
  | runtime : ErrKind
  | fileNotFound : ErrKind
deriving DecidableEq, Repr

structure AppErr where
  kind : ErrKind
  msg : String
deriving DecidableEq, Repr

deriving instance DecidableEq for Except

/-- Model of Python `str.strip()` (no argument): drop leading and trailing
whitespace. -/
def pyStrip (s : String) : String :=
  let cs := s.toList.dropWhile Char.isWhitespace
  String.mk ((cs.reverse.dropWhile Char.isWhitespace).reverse)

/-- The timeout constant of `download_audio` (src/app.py line 50). -/
def DOWNLOAD_PROCESS_TIMEOUT_SECONDS : Nat := 1200

/-- The temporary-files directory (src/app.py line 37). -/
def TEMP_AUDIO_DIR : String := "temp_audio_files"

/-- The extension probe order of `download_audio` (src/app.py line 83). -/
def AUDIO_EXTENSIONS : List String := ["m4a", "mp3", "webm", "opus"]

/-- Candidate output path for one extension (src/app.py line 84). -/
def candidatePath (output_path_without_ext ext : String) : String :=
  output_path_without_ext ++ "." ++ ext

/-- Probe loop of `download_audio` (src/app.py lines 83-87): first candidate
path that exists, in the fixed extension order. -/
def findDownloadedFile (output_path_without_ext : String) (fs : Fs) :
    Option String :=
  (AUDIO_EXTENSIONS.map (candidatePath output_path_without_ext)).find?
    (fun p => fs.contains p)

/-- Embedding of `download_audio` (src/app.py lines 49-88).  The subprocess
behaviour is an oracle; its created files join the filesystem.  On timeout
it raises `RuntimeError("Download timed out")`; on nonzero exit it raises
`RuntimeError("yt-dlp error: " ++ stripped stderr)`; on zero exit it returns
the first existing candidate path, else raises `FileNotFoundError`.  The
`youtube_url` argument only feeds the subprocess command line, which the
oracle abstracts. -/
def download_audio (beh : DownloaderBehavior) (youtube_url : String)
    (output_path_without_ext : String) (fs : Fs) : Except AppErr String × Fs :=
  let fs' := fs ++ beh.created
  match beh.outcome with
  | .timeout => (.error ⟨.runtime, "Download timed out"⟩, fs')
  | .completed code _ stderr =>
    if code ≠ 0 then
      (.error ⟨.runtime, "yt-dlp error: " ++ pyStrip stderr⟩, fs')
    else
      match findDownloadedFile output_path_without_ext fs' with
      | some p => (.ok p, fs')
      | none =>
        (.error ⟨.fileNotFound,
          "Downloaded audio file not found for: " ++ output_path_without_ext⟩, fs')

/-- Externally observable work done while handling a request. -/
inductive Eff where
  | runDownloader : Eff
  | callLocalWhisper : Eff
  | callOpenAI : Eff
  | removeFile (p : String) : Eff
deriving DecidableEq, Repr

/-- Oracle for the local Whisper model call `whisper_model.transcribe`:
either the transcription text or the message of the raised exception. -/
abbrev LocalOracle := String → Option String → Except String String

/-- Oracle for the remote `client.audio.transcriptions.create` call (and the
file open feeding it): either the transcription text or the message of the
raised exception. -/
abbrev ApiOracle := String → Option String → Except String String

/-- Embedding of `transcribe_audio_local` (src/app.py lines 90-94): one call
into the preloaded model; exceptions propagate with their own message. -/
def transcribe_audio_local (lw : LocalOracle) (file_path : String)
    (language : Option String) : Except String String × List Eff :=
  (lw file_path language, [Eff.callLocalWhisper])

/-- Embedding of `transcribe_audio_openai` (src/app.py lines 96-118): if no
API key is configured, raise `RuntimeError("OpenAI API key not configured")`
before any client construction or network call; otherwise perform the API
call and wrap any failure in `RuntimeError("OpenAI Whisper API error: ...")`. -/
def transcribe_audio_openai (apiKey : Option String) (api : ApiOracle)
    (file_path : String) (language : Option String) :
    Except String String × List Eff :=
  match apiKey with
  | none => (.error "OpenAI API key not configured", [])
  | some _ =>
    match api file_path language with
    | .ok t => (.ok t, [Eff.callOpenAI])
    | .error e => (.error ("OpenAI Whisper API error: " ++ e), [Eff.callOpenAI])

/-- Parsed JSON request body as the handlers read it: `request.is_json`,
`data.get("youtube_url")`, `data.get("language")`. -/
structure Req where
  is_json : Bool
  youtube_url : Option String
  language : Option String
deriving DecidableEq, Repr

/-- Response envelope `{success, message, data}`. -/
structure Resp where
  success : Bool
  message : String
  data : Option String
deriving DecidableEq, Repr

/-- Result of one handler run: HTTP status, JSON envelope, filesystem after
the run, and the trace of external work performed. -/
structure HandlerResult where
  status : Nat
  resp : Resp
  fs : Fs
  trace : List Eff
deriving DecidableEq, Repr

/-- Spec-side single Orchestrator, parameterised by an injected transcription
backend (spec section 4.4 / design note "Backend selection by route"); `uid`
is the generated `uuid.uuid4()` base filename.  Stages: content-type check
(415), missing/falsy `youtube_url` check (400), URL cleaning, download,
backend call, and the `finally` block that removes the artifact if it exists
(a failure of `os.remove` itself is logged and swallowed; the model lets the
removal succeed).  The refinement theorems show each route handler equals
this Orchestrator applied to its backend. -/
def runHandler (req : Req) (uid : String) (beh : DownloaderBehavior)
    (backend : String → Option String → Except String String × List Eff)
    (fs : Fs) : HandlerResult :=
  if req.is_json = false then
    ⟨415, ⟨false, "Content-Type must be application/json", none⟩, fs, []⟩
  else
    match req.youtube_url with
    | none => ⟨400, ⟨false, "Missing youtube_url", none⟩, fs, []⟩
    | some rawUrl =>
      if rawUrl = "" then ⟨400, ⟨false, "Missing youtube_url", none⟩, fs, []⟩
      else
        let url := clean_youtube_url rawUrl
        let output_template := TEMP_AUDIO_DIR ++ "/" ++ uid
        match download_audio beh url output_template fs with
        | (.error e, fs₁) =>
          ⟨500, ⟨false, e.msg, none⟩, fs₁, [Eff.runDownloader]⟩
        | (.ok p, fs₁) =>
          let (tres, teff) := backend p req.language
          let (fs₂, reff) :=
            if fs₁.contains p then (fsRemove fs₁ p, [Eff.removeFile p])
            else (fs₁, ([] : List Eff))
          match tres with
          | .ok t =>
            ⟨200, ⟨true, "Transcription completed", some t⟩, fs₂,
              [Eff.runDownloader] ++ teff ++ reff⟩
          | .error m =>
            ⟨500, ⟨false, m, none⟩, fs₂,
              [Eff.runDownloader] ++ teff ++ reff⟩

/-- Embedding of the `/api/v1/transcribe` handler `transcribe`
(src/app.py lines 120-162).  The body mirrors the source line by line; its
only backend call is `transcribe_audio_local`. -/
def transcribe (req : Req) (uid : String) (beh : DownloaderBehavior)
    (lw : LocalOracle) (fs : Fs) : HandlerResult :=
  if req.is_json = false then
    ⟨415, ⟨false, "Content-Type must be application/json", none⟩, fs, []⟩
  else
    match req.youtube_url with
    | none => ⟨400, ⟨false, "Missing youtube_url", none⟩, fs, []⟩
    | some rawUrl =>
      if rawUrl = "" then ⟨400, ⟨false, "Missing youtube_url", none⟩, fs, []⟩
      else
        let url := clean_youtube_url rawUrl
        let output_template := TEMP_AUDIO_DIR ++ "/" ++ uid
        match download_audio beh url output_template fs with
        | (.error e, fs₁) =>
          ⟨500, ⟨false, e.msg, none⟩, fs₁, [Eff.runDownloader]⟩
        | (.ok p, fs₁) =>
          let (tres, teff) := transcribe_audio_local lw p req.language
          let (fs₂, reff) :=
            if fs₁.contains p then (fsRemove fs₁ p, [Eff.removeFile p])
            else (fs₁, ([] : List Eff))
          match tres with
          | .ok t =>
            ⟨200, ⟨true, "Transcription completed", some t⟩, fs₂,
              [Eff.runDownloader] ++ teff ++ reff⟩
          | .error m =>
            ⟨500, ⟨false, m, none⟩, fs₂,
              [Eff.runDownloader] ++ teff ++ reff⟩

/-- Embedding of the `/api/v2/transcribe` handler `transcribe_openai`
(src/app.py lines 164-206).  The body mirrors the source line by line; its
only backend call is `transcribe_audio_openai`. -/
def transcribe_openai (req : Req) (uid : String) (beh : DownloaderBehavior)
    (apiKey : Option String) (api : ApiOracle) (fs : Fs) : HandlerResult :=
  if req.is_json = false then
    ⟨415, ⟨false, "Content-Type must be application/json", none⟩, fs, []⟩
  else
    match req.youtube_url with
    | none => ⟨400, ⟨false, "Missing youtube_url", none⟩, fs, []⟩
    | some rawUrl =>
      if rawUrl = "" then ⟨400, ⟨false, "Missing youtube_url", none⟩, fs, []⟩
      else
        let url := clean_youtube_url rawUrl
        let output_template := TEMP_AUDIO_DIR ++ "/" ++ uid
        match download_audio beh url output_template fs with
        | (.error e, fs₁) =>
          ⟨500, ⟨false, e.msg, none⟩, fs₁, [Eff.runDownloader]⟩
        | (.ok p, fs₁) =>
          let (tres, teff) := transcribe_audio_openai apiKey api p req.language
          let (fs₂, reff) :=
            if fs₁.contains p then (fsRemove fs₁ p, [Eff.removeFile p])
            else (fs₁, ([] : List Eff))
          match tres with
          | .ok t =>
            ⟨200, ⟨true, "Transcription completed", some t⟩, fs₂,
              [Eff.runDownloader] ++ teff ++ reff⟩
          | .error m =>
            ⟨500, ⟨false, m, none⟩, fs₂,
              [Eff.runDownloader] ++ teff ++ reff⟩

/-! Startup configuration. -/

/-- The accepted Whisper model sizes (src/app.py line 27). -/
def VALID_MODELS : List String :=
  ["tiny.en", "tiny", "base.en", "base", "small.en", "small", "medium.en",
   "medium", "large-v1", "large-v2", "large-v3", "large", "large-v3-turbo",
   "turbo"]

/-- The raw configured model size: `os.getenv("WHISPER_MODEL_SIZE", "base")`
(src/app.py line 24). -/
def rawModelSize (env : Option String) : String := env.getD "base"

/-- Effective model size after the startup validation (src/app.py lines
28-30): an invalid configured size is replaced by `"base"`. -/
def WHISPER_MODEL_SIZE (env : Option String) : String :=
  let s := rawModelSize env
  if VALID_MODELS.contains s then s else "base"

/-! Helper lemmas. -/

theorem pctDecode_ne_nil (l : List Char) (h : l ≠ []) : pctDecode l ≠ [] := by
  rw [pctDecode.eq_def]
  split
  · exact absurd rfl h
  · split <;> simp
  · simp

theorem unquotePlus_ne_nil (s : List Char) (h : s ≠ []) : unquotePlus s ≠ [] := by
  apply pctDecode_ne_nil
  simpa using h

/-- Every value produced by `parse_qsl` is a nonempty string: empty-valued
fields are dropped during query-string parsing. -/
theorem parse_qsl_value_ne_nil (qs : List Char) (kv : List Char × List Char)
    (h : kv ∈ parse_qsl qs) : kv.2 ≠ [] := by
  rw [parse_qsl] at h
  rw [List.mem_filterMap] at h
  obtain ⟨field, _, hf⟩ := h
  split at hf
  · exact absurd hf (by simp)
  · split at hf
    · exact absurd hf (by simp)
    · split at hf
      · exact absurd hf (by simp)
      · rename_i hval
        obtain rfl := Option.some.inj hf
        exact unquotePlus_ne_nil _ hval

/-- Predicate: every value stored in a grouped query dictionary satisfies
`P`. -/
def AllVals (P : List Char → Prop) (qp : List (List Char × List (List Char))) :
    Prop :=
  ∀ kv ∈ qp, ∀ x ∈ kv.2, P x

theorem insertAppend_allVals {P : List Char → Prop}
    (acc : List (List Char × List (List Char))) (k v : List Char)
    (hacc : AllVals P acc) (hv : P v) : AllVals P (insertAppend acc k v) := by
  induction acc with
  | nil =>
    intro kv hkv x hx
    simp [insertAppend] at hkv
    subst hkv
    simp at hx
    subst hx
    exact hv
  | cons hd tl ih =>
    obtain ⟨k', vs⟩ := hd
    intro kv hkv x hx
    rw [insertAppend] at hkv
    split at hkv
    · rcases List.mem_cons.mp hkv with h1 | h1
      · subst h1
        rcases List.mem_append.mp hx with h2 | h2
        · exact hacc (k', vs) (List.mem_cons_self _ _) x h2
        · simp at h2
          subst h2
          exact hv
      · exact hacc kv (List.mem_cons_of_mem _ h1) x hx
    · rcases List.mem_cons.mp hkv with h1 | h1
      · subst h1
        exact hacc (k', vs) (List.mem_cons_self _ _) x hx
      · exact ih (fun kv' hkv' => hacc kv' (List.mem_cons_of_mem _ hkv')) kv h1 x hx

theorem foldl_insertAppend_allVals {P : List Char → Prop}
    (l : List (List Char × List Char))
    (hl : ∀ kv ∈ l, P kv.2) :
    ∀ acc, AllVals P acc →
      AllVals P (l.foldl (fun acc kv => insertAppend acc kv.1 kv.2) acc) := by
  induction l with
  | nil => intro acc hacc; simpa using hacc
  | cons hd tl ih =>
    intro acc hacc
    rw [List.foldl_cons]
    exact ih (fun kv hkv => hl kv (List.mem_cons_of_mem _ hkv)) _
      (insertAppend_allVals acc hd.1 hd.2 hacc (hl hd (List.mem_cons_self _ _)))

/-- Every value stored by `parse_qs` is a nonempty string. -/
theorem parse_qs_value_ne_nil (qs : List Char)
    (kv : List Char × List (List Char)) (h : kv ∈ parse_qs qs) :
    ∀ x ∈ kv.2, x ≠ [] := by
  have := foldl_insertAppend_allVals (P := fun x => x ≠ []) (parse_qsl qs)
    (fun kv hkv => parse_qsl_value_ne_nil qs kv hkv) [] (by intro kv hkv; simp at hkv)
  exact this kv h

theorem lookupKey_mem (qp : List (List Char × List (List Char)))
    (k : List Char) (vs : List (List Char)) (h : lookupKey qp k = some vs) :
    (k, vs) ∈ qp := by
  induction qp with
  | nil => simp [lookupKey] at h
  | cons hd tl ih =>
    obtain ⟨k', vs'⟩ := hd
    rw [lookupKey] at h
    split at h
    · rename_i heq
      obtain rfl := Option.some.inj h
      subst heq
      exact List.mem_cons_self _ _
    · exact List.mem_cons_of_mem _ (ih h)

/-- The retrieved first `v` value is never the empty string, so the Python
truthiness check `if video_id:` reduces to presence of the parsed value. -/
theorem getV_parse_qs_ne_nil (qs : List Char) (v : List Char)
    (h : getV (parse_qs qs) = some v) : v ≠ [] := by
  rw [getV] at h
  split at h
  · rename_i vs hvs
    have hmem : (([ 'v' ] : List Char), vs) ∈ parse_qs qs := lookupKey_mem _ _ _ hvs
    have hv : v ∈ vs := by
      cases vs with
      | nil => simp at h
      | cons a t => simp at h; subst h; exact List.mem_cons_self _ _
    exact parse_qs_value_ne_nil qs _ hmem v hv
  · simp at h

/-- The first parsed `v` value of a URL, as `clean_youtube_url` reads it. -/
def vFirst (u : String) : Option (List Char) :=
  getV (parse_qs (urlQuery u.toList))

/-- The filesystem after `download_audio` is always the input filesystem plus
the files the subprocess created. -/
theorem download_audio_snd (beh : DownloaderBehavior) (url base : String)
    (fs : Fs) : (download_audio beh url base fs).2 = fs ++ beh.created := by
  obtain ⟨outc, created⟩ := beh
  rcases outc with _ | ⟨code, out, err⟩
  · rfl
  · rw [download_audio]
    dsimp only
    split
    · rfl
    · split <;> rfl

/-- A path returned by a successful `download_audio` exists on disk. -/
theorem download_audio_ok_mem (beh : DownloaderBehavior) (url base : String)
    (fs : Fs) (p : String)
    (hd : (download_audio beh url base fs).1 = .ok p) : p ∈ fs ++ beh.created := by
  obtain ⟨outc, created⟩ := beh
  rcases outc with _ | ⟨code, out, err⟩
  · simp [download_audio] at hd
  · by_cases hc : code = 0
    · subst hc
      rcases hfind : findDownloadedFile base (fs ++ created) with _ | q
      · simp [download_audio, hfind] at hd
      · simp [download_audio, hfind] at hd
        subst hd
        rw [findDownloadedFile] at hfind
        have hq := List.find?_some hfind
        simpa using hq
    · simp [download_audio, hc] at hd

/-- The v1 handler is the Orchestrator applied to the local backend. -/
theorem transcribe_eq_runHandler (req : Req) (uid : String)
    (beh : DownloaderBehavior) (lw : LocalOracle) (fs : Fs) :
    transcribe req uid beh lw fs
      = runHandler req uid beh (transcribe_audio_local lw) fs := rfl

/-- The v2 handler is the Orchestrator applied to the OpenAI backend. -/
theorem transcribe_openai_eq_runHandler (req : Req) (uid : String)
    (beh : DownloaderBehavior) (apiKey : Option String) (api : ApiOracle)
    (fs : Fs) :
    transcribe_openai req uid beh apiKey api fs
      = runHandler req uid beh (transcribe_audio_openai apiKey api) fs := rfl

/-- Whenever the download step returned an artifact path, the Orchestrator
removes it in the cleanup step, whichever backend ran and however it ended. -/
theorem runHandler_cleanup (req : Req) (uid : String) (beh : DownloaderBehavior)
    (backend : String → Option String → Except String String × List Eff)
    (fs : Fs) (u p : String)
    (hj : req.is_json = true) (hu : req.youtube_url = some u) (hne : u ≠ "")
    (hd : (download_audio beh (clean_youtube_url u) (TEMP_AUDIO_DIR ++ "/" ++ uid) fs).1
      = .ok p) :
    p ∉ (runHandler req uid beh backend fs).fs ∧
      Eff.removeFile p ∈ (runHandler req uid beh backend fs).trace := by
  have hsnd := download_audio_snd beh (clean_youtube_url u) (TEMP_AUDIO_DIR ++ "/" ++ uid) fs
  have hpair : download_audio beh (clean_youtube_url u) (TEMP_AUDIO_DIR ++ "/" ++ uid) fs
      = (.ok p, fs ++ beh.created) := by
    rw [Prod.ext_iff]
    exact ⟨hd, hsnd⟩
  have hmem : p ∈ fs ++ beh.created :=
    download_audio_ok_mem beh (clean_youtube_url u) (TEMP_AUDIO_DIR ++ "/" ++ uid) fs p hd
  have hcont : (fs ++ beh.created).contains p = true := by simpa using hmem
  rcases hb : backend p req.language with ⟨tres, teff⟩
  rw [runHandler]
  simp only [hj, hu, hpair, hb]
  have hor : p ∈ fs ∨ p ∈ beh.created := by simpa using hmem
  rcases tres with t | m <;>
    simp [hne, hcont, fsRemove, hor, List.mem_filter]

/-! Claim theorems. -/

/-- C1.  For every request that passed validation and whose audio
acquisition succeeded with artifact path `p`, both handlers delete `p` in
the unconditional cleanup step: `p` does not exist on disk when the handler
returns, and the removal effect is in the trace, whether transcription
succeeded or failed (the backends and their outcomes are arbitrary). -/
theorem artifact_always_removed (req : Req) (uid : String)
    (beh : DownloaderBehavior) (lw : LocalOracle) (apiKey : Option String)
    (api : ApiOracle) (fs : Fs) (u p : String)
    (hj : req.is_json = true) (hu : req.youtube_url = some u) (hne : u ≠ "")
    (hd : (download_audio beh (clean_youtube_url u) (TEMP_AUDIO_DIR ++ "/" ++ uid) fs).1
      = .ok p) :
    (p ∉ (transcribe req uid beh lw fs).fs ∧
      Eff.removeFile p ∈ (transcribe req uid beh lw fs).trace) ∧
    (p ∉ (transcribe_openai req uid beh apiKey api fs).fs ∧
      Eff.removeFile p ∈ (transcribe_openai req uid beh apiKey api fs).trace) := by
  constructor
  · rw [transcribe_eq_runHandler]
    exact runHandler_cleanup req uid beh _ fs u p hj hu hne hd
  · rw [transcribe_openai_eq_runHandler]
    exact runHandler_cleanup req uid beh _ fs u p hj hu hne hd

theorem artifact_always_removed_witness :
    "temp_audio_files/job.m4a"
        ∉ (transcribe ⟨true, some "https://youtu.be/x", none⟩ "job"
            ⟨.completed 0 "" "", ["temp_audio_files/job.m4a"]⟩
            (fun _ _ => .error "model crashed") []).fs ∧
    "temp_audio_files/job.m4a"
        ∉ (transcribe_openai ⟨true, some "https://youtu.be/x", none⟩ "job"
            ⟨.completed 0 "" "", ["temp_audio_files/job.m4a"]⟩
            none (fun _ _ => .ok "text") []).fs :=
  ⟨(artifact_always_removed ⟨true, some "https://youtu.be/x", none⟩ "job"
      ⟨.completed 0 "" "", ["temp_audio_files/job.m4a"]⟩
      (fun _ _ => .error "model crashed") none (fun _ _ => .ok "text") []
      "https://youtu.be/x" "temp_audio_files/job.m4a"
      rfl rfl (by decide) (by decide)).1.1,
   (artifact_always_removed ⟨true, some "https://youtu.be/x", none⟩ "job"
      ⟨.completed 0 "" "", ["temp_audio_files/job.m4a"]⟩
      (fun _ _ => .error "model crashed") none (fun _ _ => .ok "text") []
      "https://youtu.be/x" "temp_audio_files/job.m4a"
      rfl rfl (by decide) (by decide)).2.1⟩

/-- C2 counterexample.  A timed-out download can leave a partial file in the
temp directory: the handler result is the 500 timeout failure, yet the file
the subprocess created before being killed is still on disk afterwards,
because on this path the handler has no artifact path and deletes nothing. -/
theorem download_timeout_leftover_counterexample :
    transcribe ⟨true, some "https://youtu.be/x", none⟩ "job"
        ⟨.timeout, ["temp_audio_files/job.m4a"]⟩ (fun _ _ => .ok "text") []
      = ⟨500, ⟨false, "Download timed out", none⟩,
          ["temp_audio_files/job.m4a"], [Eff.runDownloader]⟩ := by decide

/-- C2 (amended).  If the downloader subprocess exceeds the 1200-second
timeout, the job result is a 500 Failure whose message indicates the
timeout; the handler deletes nothing on this path, so the filesystem
afterwards is exactly the input plus whatever the downloader itself created
— in particular no leftover remains whenever the subprocess created no
file. -/
theorem download_timeout_reported (req : Req) (uid : String)
    (beh : DownloaderBehavior) (lw : LocalOracle) (fs : Fs) (u : String)
    (hj : req.is_json = true) (hu : req.youtube_url = some u) (hne : u ≠ "")
    (ht : beh.outcome = .timeout) :
    (transcribe req uid beh lw fs).status = 500 ∧
    (transcribe req uid beh lw fs).resp = ⟨false, "Download timed out", none⟩ ∧
    (transcribe req uid beh lw fs).fs = fs ++ beh.created ∧
    (beh.created = [] → (transcribe req uid beh lw fs).fs = fs) := by
  have hpair : download_audio beh (clean_youtube_url u) (TEMP_AUDIO_DIR ++ "/" ++ uid) fs
      = (.error ⟨.runtime, "Download timed out"⟩, fs ++ beh.created) := by
    rw [download_audio, ht]
  rw [transcribe]
  simp only [hj, hu, hpair]
  simp [hne]

theorem download_timeout_reported_witness :
    (transcribe ⟨true, some "https://youtu.be/x", none⟩ "job" ⟨.timeout, []⟩
        (fun _ _ => .ok "text") []).resp
      = ⟨false, "Download timed out", none⟩ ∧
    (transcribe ⟨true, some "https://youtu.be/x", none⟩ "job" ⟨.timeout, []⟩
        (fun _ _ => .ok "text") []).fs = [] :=
  ⟨(download_timeout_reported ⟨true, some "https://youtu.be/x", none⟩ "job"
      ⟨.timeout, []⟩ (fun _ _ => .ok "text") [] "https://youtu.be/x"
      rfl rfl (by decide) rfl).2.1,
   (download_timeout_reported ⟨true, some "https://youtu.be/x", none⟩ "job"
      ⟨.timeout, []⟩ (fun _ _ => .ok "text") [] "https://youtu.be/x"
      rfl rfl (by decide) rfl).2.2.2 rfl⟩

/-- C3 counterexample.  With no API key configured, the v2 handler still
runs the downloader first: the run ends in the 500 configuration failure,
but the trace records that the download subprocess ran (and its artifact was
created and cleaned) before the missing-credential failure — the failure
does not occur before all process work. -/
theorem missing_api_key_after_download_counterexample :
    transcribe_openai ⟨true, some "https://youtu.be/x", none⟩ "job"
        ⟨.completed 0 "" "", ["temp_audio_files/job.m4a"]⟩
        none (fun _ _ => .ok "text") []
      = ⟨500, ⟨false, "OpenAI API key not configured", none⟩, [],
          [Eff.runDownloader, Eff.removeFile "temp_audio_files/job.m4a"]⟩ := by
  decide

/-- C3 (amended).  When the remote backend is selected and no API credential
is configured, a request whose download succeeded fails with the
configuration error mapped to HTTP 500, and no remote API call is ever
attempted — the failure precedes all transcription network work — although
the download subprocess has already run for the request. -/
theorem missing_api_key_fails_before_api_call (req : Req) (uid : String)
    (beh : DownloaderBehavior) (api : ApiOracle) (fs : Fs) (u p : String)
    (hj : req.is_json = true) (hu : req.youtube_url = some u) (hne : u ≠ "")
    (hd : (download_audio beh (clean_youtube_url u) (TEMP_AUDIO_DIR ++ "/" ++ uid) fs).1
      = .ok p) :
    (transcribe_openai req uid beh none api fs).status = 500 ∧
    (transcribe_openai req uid beh none api fs).resp
      = ⟨false, "OpenAI API key not configured", none⟩ ∧
    Eff.callOpenAI ∉ (transcribe_openai req uid beh none api fs).trace ∧
    Eff.runDownloader ∈ (transcribe_openai req uid beh none api fs).trace := by
  have hsnd := download_audio_snd beh (clean_youtube_url u) (TEMP_AUDIO_DIR ++ "/" ++ uid) fs
  have hpair : download_audio beh (clean_youtube_url u) (TEMP_AUDIO_DIR ++ "/" ++ uid) fs
      = (.ok p, fs ++ beh.created) := by
    rw [Prod.ext_iff]
    exact ⟨hd, hsnd⟩
  rw [transcribe_openai]
  simp only [hj, hu, hpair]
  simp [hne, transcribe_audio_openai]
  split <;> simp

theorem missing_api_key_fails_before_api_call_witness :
    (transcribe_openai ⟨true, some "https://youtu.be/x", none⟩ "job"
        ⟨.completed 0 "" "", ["temp_audio_files/job.m4a"]⟩
        none (fun _ _ => .ok "text") []).resp
      = ⟨false, "OpenAI API key not configured", none⟩ ∧
    Eff.callOpenAI ∉ (transcribe_openai ⟨true, some "https://youtu.be/x", none⟩ "job"
        ⟨.completed 0 "" "", ["temp_audio_files/job.m4a"]⟩
        none (fun _ _ => .ok "text") []).trace :=
  ⟨(missing_api_key_fails_before_api_call ⟨true, some "https://youtu.be/x", none⟩
      "job" ⟨.completed 0 "" "", ["temp_audio_files/job.m4a"]⟩
      (fun _ _ => .ok "text") [] "https://youtu.be/x" "temp_audio_files/job.m4a"
      rfl rfl (by decide) (by decide)).2.1,
   (missing_api_key_fails_before_api_call ⟨true, some "https://youtu.be/x", none⟩
      "job" ⟨.completed 0 "" "", ["temp_audio_files/job.m4a"]⟩
      (fun _ _ => .ok "text") [] "https://youtu.be/x" "temp_audio_files/job.m4a"
      rfl rfl (by decide) (by decide)).2.2.1⟩

/-- C7.  Request validation in both handlers: a JSON request without a
`youtube_url` (the missing-field case) yields exactly the 400 response with
unchanged filesystem and empty effect trace, and a non-JSON request yields
exactly the 415 response with unchanged filesystem and empty effect trace,
with a result independent of the body fields — so no download, transcription
or other side effect is performed in either case. -/
theorem validation_rejects_without_side_effects :
    (∀ req uid beh lw fs, req.is_json = true → req.youtube_url = none →
      transcribe req uid beh lw fs
        = ⟨400, ⟨false, "Missing youtube_url", none⟩, fs, []⟩) ∧
    (∀ req uid beh apiKey api fs, req.is_json = true → req.youtube_url = none →
      transcribe_openai req uid beh apiKey api fs
        = ⟨400, ⟨false, "Missing youtube_url", none⟩, fs, []⟩) ∧
    (∀ req uid beh lw fs, req.is_json = false →
      transcribe req uid beh lw fs
        = ⟨415, ⟨false, "Content-Type must be application/json", none⟩, fs, []⟩) ∧
    (∀ req uid beh apiKey api fs, req.is_json = false →
      transcribe_openai req uid beh apiKey api fs
        = ⟨415, ⟨false, "Content-Type must be application/json", none⟩, fs, []⟩) ∧
    (∀ uid beh lw fs yu₁ l₁ yu₂ l₂,
      transcribe ⟨false, yu₁, l₁⟩ uid beh lw fs
        = transcribe ⟨false, yu₂, l₂⟩ uid beh lw fs) ∧
    (∀ uid beh apiKey api fs yu₁ l₁ yu₂ l₂,
      transcribe_openai ⟨false, yu₁, l₁⟩ uid beh apiKey api fs
        = transcribe_openai ⟨false, yu₂, l₂⟩ uid beh apiKey api fs) := by
  refine ⟨?_, ?_, ?_, ?_, ?_, ?_⟩
  · intro req uid beh lw fs hj hu
    rw [transcribe]
    simp [hj, hu]
  · intro req uid beh apiKey api fs hj hu
    rw [transcribe_openai]
    simp [hj, hu]
  · intro req uid beh lw fs hj
    rw [transcribe]
    simp [hj]
  · intro req uid beh apiKey api fs hj
    rw [transcribe_openai]
    simp [hj]
  · intro uid beh lw fs yu₁ l₁ yu₂ l₂
    rfl
  · intro uid beh apiKey api fs yu₁ l₁ yu₂ l₂
    rfl

theorem validation_rejects_without_side_effects_witness :
    transcribe ⟨true, none, none⟩ "job" ⟨.timeout, []⟩ (fun _ _ => .ok "t") []
      = ⟨400, ⟨false, "Missing youtube_url", none⟩, [], []⟩ ∧
    transcribe_openai ⟨false, some "https://youtu.be/x", none⟩ "job"
        ⟨.timeout, []⟩ (some "k") (fun _ _ => .ok "t") ["keep.txt"]
      = ⟨415, ⟨false, "Content-Type must be application/json", none⟩,
          ["keep.txt"], []⟩ :=
  ⟨validation_rejects_without_side_effects.1 ⟨true, none, none⟩ "job"
      ⟨.timeout, []⟩ (fun _ _ => .ok "t") [] rfl rfl,
   validation_rejects_without_side_effects.2.2.2.1
      ⟨false, some "https://youtu.be/x", none⟩ "job" ⟨.timeout, []⟩
      (some "k") (fun _ _ => .ok "t") ["keep.txt"] rfl⟩

/-- C8.  The two route handlers are the same Orchestrator up to the injected
transcription backend: each equals `runHandler` applied to its backend on
every input, so request/response shape, validation, error mapping and
cleanup are identical and only the backend differs. -/
theorem handlers_identical_up_to_backend (req : Req) (uid : String)
    (beh : DownloaderBehavior) (fs : Fs) (lw : LocalOracle)
    (apiKey : Option String) (api : ApiOracle) :
    transcribe req uid beh lw fs
      = runHandler req uid beh (transcribe_audio_local lw) fs ∧
    transcribe_openai req uid beh apiKey api fs
      = runHandler req uid beh (transcribe_audio_openai apiKey api) fs :=
  ⟨transcribe_eq_runHandler req uid beh lw fs,
   transcribe_openai_eq_runHandler req uid beh apiKey api fs⟩

/-- C4.  URL normalization: for every input URL in which query parsing
yields a `v` parameter, `clean_youtube_url` returns exactly
`https://www.youtube.com/watch?v=<v>` built from that parameter's (first)
value, regardless of scheme or other query parameters; for every URL without
a parsed `v` parameter it returns the input unchanged.  The function is
total, so it never fails. -/
theorem clean_youtube_url_canonicalizes (u : String) :
    (∀ v, vFirst u = some v →
      clean_youtube_url u = String.mk ("https://www.youtube.com/watch?v=".toList ++ v)) ∧
    (vFirst u = none → clean_youtube_url u = u) := by
  constructor
  · intro v hv
    have hne : v ≠ [] := getV_parse_qs_ne_nil _ _ hv
    rw [clean_youtube_url]
    rw [vFirst] at hv
    rw [hv]
    simp [hne]
  · intro hv
    rw [clean_youtube_url]
    rw [vFirst] at hv
    rw [hv]

theorem clean_youtube_url_canonicalizes_witness :
    (vFirst "https://www.youtube.com/watch?v=XYZ&t=30s" = some "XYZ".toList ∧
      clean_youtube_url "https://www.youtube.com/watch?v=XYZ&t=30s"
        = "https://www.youtube.com/watch?v=XYZ") ∧
    (vFirst "https://youtu.be/abc123?feature=share" = none ∧
      clean_youtube_url "https://youtu.be/abc123?feature=share"
        = "https://youtu.be/abc123?feature=share") :=
  ⟨⟨by decide,
    ((clean_youtube_url_canonicalizes "https://www.youtube.com/watch?v=XYZ&t=30s").1
      "XYZ".toList (by decide)).trans (by decide)⟩,
   ⟨by decide,
    (clean_youtube_url_canonicalizes "https://youtu.be/abc123?feature=share").2
      (by decide)⟩⟩

/-- C10.  Empty-valued query parameters are dropped during parsing, so a URL
whose `v` parameter only occurs with an empty value is returned unchanged;
when `v` appears multiple times, only the first parsed value is used in the
canonical form. -/
theorem clean_youtube_url_empty_and_duplicate_v :
    (∀ qs kv, kv ∈ parse_qsl qs → kv.2 ≠ []) ∧
    (∀ u, vFirst u = none → clean_youtube_url u = u) ∧
    (∀ u v vs, lookupKey (parse_qs (urlQuery u.toList)) ['v'] = some (v :: vs) →
      clean_youtube_url u = String.mk ("https://www.youtube.com/watch?v=".toList ++ v)) := by
  refine ⟨fun qs kv h => parse_qsl_value_ne_nil qs kv h, ?_, ?_⟩
  · intro u hv
    rw [clean_youtube_url]
    rw [vFirst] at hv
    rw [hv]
  · intro u v vs h
    have hgv : getV (parse_qs (urlQuery u.toList)) = some v := by
      rw [getV, h]
      rfl
    have hne : v ≠ [] := getV_parse_qs_ne_nil _ _ hgv
    rw [clean_youtube_url, hgv]
    simp [hne]

theorem clean_youtube_url_empty_and_duplicate_v_witness :
    clean_youtube_url "https://www.youtube.com/watch?v="
      = "https://www.youtube.com/watch?v=" ∧
    clean_youtube_url "https://www.youtube.com/watch?v=a&v=b"
      = "https://www.youtube.com/watch?v=a" :=
  ⟨clean_youtube_url_empty_and_duplicate_v.2.1
      "https://www.youtube.com/watch?v=" (by decide),
   (clean_youtube_url_empty_and_duplicate_v.2.2
      "https://www.youtube.com/watch?v=a&v=b" "a".toList ["b".toList]
      (by decide)).trans (by decide)⟩

/-- C9.  Startup model-size validation: a configured size outside the
accepted set is corrected to the safe default `base` (itself an accepted
size) instead of failing startup, and any accepted value is used as given;
the selection is total and always yields an accepted size. -/
theorem whisper_model_size_validation (env : Option String) :
    ("base" ∈ VALID_MODELS) ∧
    (rawModelSize env ∈ VALID_MODELS → WHISPER_MODEL_SIZE env = rawModelSize env) ∧
    (rawModelSize env ∉ VALID_MODELS → WHISPER_MODEL_SIZE env = "base") ∧
    WHISPER_MODEL_SIZE env ∈ VALID_MODELS := by
  refine ⟨by decide, ?_, ?_, ?_⟩
  · intro h
    simp [WHISPER_MODEL_SIZE, h]
  · intro h
    simp [WHISPER_MODEL_SIZE, h]
  · by_cases h : rawModelSize env ∈ VALID_MODELS
    · simp [WHISPER_MODEL_SIZE, h]
    · simp [WHISPER_MODEL_SIZE, h]
      decide

/-- C5.  After a zero-exit download, the probe order over candidate paths is
exactly m4a, mp3, webm, opus, returning the first existing candidate; when
none of the four exists the call fails with the `FileNotFoundError`-class
error. -/
theorem download_audio_probe_order (beh : DownloaderBehavior)
    (url base : String) (fs : Fs) (out err : String)
    (hc : beh.outcome = .completed 0 out err) :
    (candidatePath base "m4a" ∈ fs ++ beh.created →
      download_audio beh url base fs = (.ok (candidatePath base "m4a"), fs ++ beh.created)) ∧
    (candidatePath base "m4a" ∉ fs ++ beh.created →
      candidatePath base "mp3" ∈ fs ++ beh.created →
      download_audio beh url base fs = (.ok (candidatePath base "mp3"), fs ++ beh.created)) ∧
    (candidatePath base "m4a" ∉ fs ++ beh.created →
      candidatePath base "mp3" ∉ fs ++ beh.created →
      candidatePath base "webm" ∈ fs ++ beh.created →
      download_audio beh url base fs = (.ok (candidatePath base "webm"), fs ++ beh.created)) ∧
    (candidatePath base "m4a" ∉ fs ++ beh.created →
      candidatePath base "mp3" ∉ fs ++ beh.created →
      candidatePath base "webm" ∉ fs ++ beh.created →
      candidatePath base "opus" ∈ fs ++ beh.created →
      download_audio beh url base fs = (.ok (candidatePath base "opus"), fs ++ beh.created)) ∧
    (candidatePath base "m4a" ∉ fs ++ beh.created →
      candidatePath base "mp3" ∉ fs ++ beh.created →
      candidatePath base "webm" ∉ fs ++ beh.created →
      candidatePath base "opus" ∉ fs ++ beh.created →
      download_audio beh url base fs =
        (.error ⟨.fileNotFound, "Downloaded audio file not found for: " ++ base⟩,
          fs ++ beh.created)) := by
  have hreduce : download_audio beh url base fs =
      (match findDownloadedFile base (fs ++ beh.created) with
       | some p => (.ok p, fs ++ beh.created)
       | none =>
         (.error ⟨.fileNotFound, "Downloaded audio file not found for: " ++ base⟩,
           fs ++ beh.created)) := by
    rw [download_audio, hc]
    simp
  refine ⟨?_, ?_, ?_, ?_, ?_⟩
  · intro hmem
    rw [hreduce]
    have hfind : findDownloadedFile base (fs ++ beh.created)
        = some (candidatePath base "m4a") := by
      simp [findDownloadedFile, AUDIO_EXTENSIONS, List.find?, hmem]
    rw [hfind]
  · intro h1 hmem
    rw [hreduce]
    have hfind : findDownloadedFile base (fs ++ beh.created)
        = some (candidatePath base "mp3") := by
      simp [findDownloadedFile, AUDIO_EXTENSIONS, List.find?, h1, hmem]
    rw [hfind]
  · intro h1 h2 hmem
    rw [hreduce]
    have hfind : findDownloadedFile base (fs ++ beh.created)
        = some (candidatePath base "webm") := by
      simp [findDownloadedFile, AUDIO_EXTENSIONS, List.find?, h1, h2, hmem]
    rw [hfind]
  · intro h1 h2 h3 hmem
    rw [hreduce]
    have hfind : findDownloadedFile base (fs ++ beh.created)
        = some (candidatePath base "opus") := by
      simp [findDownloadedFile, AUDIO_EXTENSIONS, List.find?, h1, h2, h3, hmem]
    rw [hfind]
  · intro h1 h2 h3 h4
    rw [hreduce]
    have hfind : findDownloadedFile base (fs ++ beh.created) = none := by
      simp [findDownloadedFile, AUDIO_EXTENSIONS, List.find?, h1, h2, h3, h4]
    rw [hfind]

theorem download_audio_probe_order_witness :
    download_audio
        ⟨.completed 0 "" "", ["temp_audio_files/u.webm", "temp_audio_files/u.mp3"]⟩
        "https://www.youtube.com/watch?v=abc" "temp_audio_files/u" []
      = (.ok "temp_audio_files/u.mp3",
         ["temp_audio_files/u.webm", "temp_audio_files/u.mp3"]) ∧
    download_audio ⟨.completed 0 "" "", []⟩
        "https://www.youtube.com/watch?v=abc" "temp_audio_files/u" []
      = (.error ⟨.fileNotFound, "Downloaded audio file not found for: temp_audio_files/u"⟩,
         []) :=
  ⟨((download_audio_probe_order
      ⟨.completed 0 "" "", ["temp_audio_files/u.webm", "temp_audio_files/u.mp3"]⟩
      "https://www.youtube.com/watch?v=abc" "temp_audio_files/u" [] "" "" rfl).2.1
      (by decide) (by decide)).trans (by decide),
   ((download_audio_probe_order ⟨.completed 0 "" "", []⟩
      "https://www.youtube.com/watch?v=abc" "temp_audio_files/u" [] "" "" rfl).2.2.2.2
      (by decide) (by decide) (by decide) (by decide)).trans (by decide)⟩

/-- C6.  The download step fails with a `RuntimeError`-class error (the
spec's `DownloadError`) exactly when the subprocess timed out or exited
nonzero: on timeout the message is the timeout message, on nonzero exit the
message carries the stripped captured stderr, and conversely any
`RuntimeError`-class failure arose from one of these two conditions (the
missing-output case is the distinct `FileNotFoundError` class). -/
theorem download_audio_error_conditions (beh : DownloaderBehavior)
    (url base : String) (fs : Fs) :
    (beh.outcome = .timeout →
      (download_audio beh url base fs).1 = .error ⟨.runtime, "Download timed out"⟩) ∧
    (∀ code out err, beh.outcome = .completed code out err → code ≠ 0 →
      (download_audio beh url base fs).1
        = .error ⟨.runtime, "yt-dlp error: " ++ pyStrip err⟩) ∧
    (∀ e, (download_audio beh url base fs).1 = .error e → e.kind = .runtime →
      beh.outcome = .timeout ∨
        ∃ code out err, beh.outcome = .completed code out err ∧ code ≠ 0) := by
  refine ⟨?_, ?_, ?_⟩
  · intro h
    rw [download_audio, h]
  · intro code out err h hne
    rw [download_audio, h]
    simp [hne]
  · intro e he hkind
    rcases houtcome : beh.outcome with _ | ⟨code, out, err⟩
    · exact Or.inl rfl
    · refine Or.inr ⟨code, out, err, rfl, ?_⟩
      intro hzero
      subst hzero
      rw [download_audio, houtcome] at he
      simp at he
      rcases hfind : findDownloadedFile base (fs ++ beh.created) with _ | p
      · rw [hfind] at he
        simp at he
        rw [← he] at hkind
        simp at hkind
      · rw [hfind] at he
        simp at he

theorem download_audio_error_conditions_witness :
    (download_audio ⟨.timeout, []⟩ "u" "temp_audio_files/j" []).1
      = .error ⟨.runtime, "Download timed out"⟩ ∧
    (download_audio ⟨.completed 1 "" " ERROR: boom\n", []⟩ "u" "temp_audio_files/j" []).1
      = .error ⟨.runtime, "yt-dlp error: ERROR: boom"⟩ :=
  ⟨(download_audio_error_conditions ⟨.timeout, []⟩ "u" "temp_audio_files/j" []).1 rfl,
   ((download_audio_error_conditions ⟨.completed 1 "" " ERROR: boom\n", []⟩ "u"
      "temp_audio_files/j" []).2.1 1 "" " ERROR: boom\n" rfl (by decide)).trans
     (by decide)⟩

theorem whisper_model_size_validation_witness :
    (rawModelSize (some "gigantic") ∉ VALID_MODELS ∧
      WHISPER_MODEL_SIZE (some "gigantic") = "base") ∧
    (rawModelSize (some "small") ∈ VALID_MODELS ∧
      WHISPER_MODEL_SIZE (some "small") = "small") ∧
    WHISPER_MODEL_SIZE none = "base" :=
  ⟨⟨by decide, (whisper_model_size_validation (some "gigantic")).2.2.1 (by decide)⟩,
   ⟨by decide, (whisper_model_size_validation (some "small")).2.1 (by decide)⟩,
   (whisper_model_size_validation none).2.1 (by decide)⟩

end YT
